import Mathlib

/-!
Verification development for the `wgpu_instancing` particle renderer.

The Rust sources (`src/vertex.rs`, `src/state.rs`, `src/main.rs`,
`src/camera.rs`) are shallowly embedded below.  `f32` scalars are modelled
as exact rationals (`ℚ`); machine floating point is replaced by exact
arithmetic, the standard idealisation for this kind of geometric code.
Host vectors (`Vec<Instance>`, `Vec<InstanceRaw>`, `Vec<ParticleCpuData>`)
become Lean `List`s, and the device-resident instance buffer is modelled
explicitly as a further list of `InstanceRaw` so that host/device
consistency can be stated.
-/

namespace WgpuInstancing

/-- Component-wise model of `glam::Vec3` / `cgmath::Vector3<f32>`. -/
@[ext]
structure Vec3 where
  x : ℚ
  y : ℚ
  z : ℚ
deriving DecidableEq, Repr

/-- Component-wise model of `glam::Vec4` / `cgmath::Vector4<f32>`. -/
@[ext]
structure Vec4 where
  x : ℚ
  y : ℚ
  z : ℚ
  w : ℚ
deriving DecidableEq, Repr

/-- Model of `cgmath::Quaternion<f32>`: scalar part `s` and vector part `v`. -/
structure Quat where
  v : Vec3
  s : ℚ
deriving DecidableEq, Repr

/-- Column-major 4x4 matrix, as in `cgmath::Matrix4` / the `[[f32; 4]; 4]`
field of `InstanceRaw`.  `w_axis` is the fourth column, which for a
translation-times-rotation model matrix holds the translation. -/
structure Mat4 where
  x_axis : Vec4
  y_axis : Vec4
  z_axis : Vec4
  w_axis : Vec4
deriving DecidableEq, Repr

def Vec3.add (a b : Vec3) : Vec3 := ⟨a.x + b.x, a.y + b.y, a.z + b.z⟩

instance : Add Vec3 := ⟨Vec3.add⟩

/-- The `.xyz()` swizzle (`glam::Vec4Swizzles`) used in `State::input` to
extract the translation column of a model matrix. -/
def Vec4.xyz (v : Vec4) : Vec3 := ⟨v.x, v.y, v.z⟩

/-- Matrix-vector product for a column-major 4x4 matrix. -/
def Mat4.mulVec (m : Mat4) (v : Vec4) : Vec4 :=
  ⟨m.x_axis.x * v.x + m.y_axis.x * v.y + m.z_axis.x * v.z + m.w_axis.x * v.w,
   m.x_axis.y * v.x + m.y_axis.y * v.y + m.z_axis.y * v.z + m.w_axis.y * v.w,
   m.x_axis.z * v.x + m.y_axis.z * v.y + m.z_axis.z * v.z + m.w_axis.z * v.w,
   m.x_axis.w * v.x + m.y_axis.w * v.y + m.z_axis.w * v.z + m.w_axis.w * v.w⟩

/-- Matrix product, column by column (as `cgmath`'s `Mul` for `Matrix4`). -/
def Mat4.mul (a b : Mat4) : Mat4 :=
  ⟨a.mulVec b.x_axis, a.mulVec b.y_axis, a.mulVec b.z_axis, a.mulVec b.w_axis⟩

/-- `cgmath::Matrix4::from_translation(v)`: identity with `v` in the fourth
column. -/
def Matrix4.from_translation (v : Vec3) : Mat4 :=
  ⟨⟨1, 0, 0, 0⟩, ⟨0, 1, 0, 0⟩, ⟨0, 0, 1, 0⟩, ⟨v.x, v.y, v.z, 1⟩⟩

/-- `cgmath`'s `From<Quaternion<S>> for Matrix4<S>` conversion (the rotation
sub-matrix formula of `Matrix3::from(quat)`, embedded in a 4x4 matrix). -/
def Matrix4.from_quat (q : Quat) : Mat4 :=
  let x2 := q.v.x + q.v.x
  let y2 := q.v.y + q.v.y
  let z2 := q.v.z + q.v.z
  let xx2 := x2 * q.v.x
  let xy2 := x2 * q.v.y
  let xz2 := x2 * q.v.z
  let yy2 := y2 * q.v.y
  let yz2 := y2 * q.v.z
  let zz2 := z2 * q.v.z
  let sy2 := y2 * q.s
  let sz2 := z2 * q.s
  let sx2 := x2 * q.s
  ⟨⟨1 - yy2 - zz2, xy2 + sz2, xz2 - sy2, 0⟩,
   ⟨xy2 - sz2, 1 - xx2 - zz2, yz2 + sx2, 0⟩,
   ⟨xz2 + sy2, yz2 - sx2, 1 - xx2 - yy2, 0⟩,
   ⟨0, 0, 0, 1⟩⟩

/-- Model of `vertex.rs`'s `Instance`: logical per-particle state. -/
structure Instance where
  position : Vec3
  rotation : Quat
  color : Vec4
deriving DecidableEq, Repr

/-- Model of `vertex.rs`'s `InstanceRaw`: the GPU-layout mirror, a 4x4 model
matrix plus a color. -/
structure InstanceRaw where
  model : Mat4
  color : Vec4
deriving DecidableEq, Repr

/-- `Instance::to_raw` from `vertex.rs`:
`model = Matrix4::from_translation(position) * Matrix4::from(rotation)`,
`color` copied unchanged. -/
def Instance.to_raw (i : Instance) : InstanceRaw :=
  { model := Mat4.mul (Matrix4.from_translation i.position) (Matrix4.from_quat i.rotation)
    color := i.color }

/-- Model of `state.rs`'s `ParticleCpuData`: the per-particle drift velocity
(the trailing `_unused: f32` padding carries no information and is dropped). -/
structure ParticleCpuData where
  speed : Vec3
deriving DecidableEq, Repr

/-- The translation column of `to_raw`'s model matrix is exactly the
instance's position (fourth column = `(position, 1)`). -/
theorem to_raw_w_axis (i : Instance) :
    (Instance.to_raw i).model.w_axis = ⟨i.position.x, i.position.y, i.position.z, 1⟩ := by
  simp only [Instance.to_raw, Mat4.mul, Mat4.mulVec, Matrix4.from_translation,
    Matrix4.from_quat]
  ext <;> ring

/-- Model of `camera.rs`'s `Camera` (the fields; the view-projection matrix
is not needed by any operation modelled here). -/
structure Camera where
  eye : Vec3
  target : Vec3
  up : Vec3
  aspect : ℚ
  fovy : ℚ
  znear : ℚ
  zfar : ℚ
deriving DecidableEq, Repr

/-- `winit::event::MouseScrollDelta`; the scalars are the scroll amounts. -/
inductive MouseScrollDelta where
  | LineDelta (x y : ℚ)
  | PixelDelta (x y : ℚ)
deriving DecidableEq, Repr

/-- The `winit::event::VirtualKeyCode` values relevant to `State::input`
(`R` triggers the backend switch; any other key is ignored). -/
inductive VirtualKeyCode where
  | R
  | Space
  | Escape
deriving DecidableEq, Repr

/-- The subset of `winit::event::WindowEvent` the program inspects
(`State::input` and the `main` event loop). -/
inductive WindowEvent where
  | MouseWheel (delta : MouseScrollDelta)
  | KeyboardInput (virtual_keycode : Option VirtualKeyCode)
  | Resized (width height : ℕ)
  | ScaleFactorChanged (width height : ℕ)
  | CloseRequested
  | Other
deriving DecidableEq, Repr

/-- The `wgpu::SurfaceError` variants `State::render` can return. -/
inductive SurfaceError where
  | Timeout
  | Outdated
  | Lost
  | OutOfMemory
deriving DecidableEq, Repr

/-- Number of instances constructed in `State::new` (`0..1_500_000`). -/
def instanceCount : ℕ := 1500000

/-- The compute dispatch grid of `State::move_particles`:
`dispatch_workgroups(10_000, 150, 1)`. -/
def dispatch_workgroups_x : ℕ := 10000

def dispatch_workgroups_y : ℕ := 150

def dispatch_workgroups_z : ℕ := 1

/-- `std::mem::size_of::<InstanceRaw>()`: a `[[f32; 4]; 4]` plus a
`[f32; 4]`, 20 `f32`s of 4 bytes each. -/
def instanceRawByteSize : ℕ := 80

/-- `wgpu::Limits::default().max_storage_buffer_binding_size` (128 MiB);
these are the limits the device is requested with in `State::new`. -/
def default_max_storage_buffer_binding_size : ℕ := 134217728

/-- `wgpu::Limits::default().max_uniform_buffer_binding_size` (64 KiB). -/
def default_max_uniform_buffer_binding_size : ℕ := 65536

/-- The unused bound computed in `State::new`:
`adapter.limits().max_storage_buffer_binding_size.min(adapter.limits().max_uniform_buffer_binding_size)`
(note: the code does not divide by `size_of::<InstanceRaw>()`). -/
def max_particle_count (storage_limit uniform_limit : ℕ) : ℕ :=
  min storage_limit uniform_limit

/-- Model of the relevant mutable state of `state.rs`'s `State`.
`instance_buffer` is the contents of the device-resident instance buffer;
`surface_configured_count` counts `surface.configure` calls so that "the
surface is not reconfigured" is statable; `compute_pipeline` is `true` when
the `Option<ComputePipeline>` is `Some`. -/
structure State where
  config_width : ℕ
  config_height : ℕ
  size_width : ℕ
  size_height : ℕ
  surface_configured_count : ℕ
  instances : List Instance
  instances_raw : List InstanceRaw
  instances_cpu_data : List ParticleCpuData
  instance_buffer : List InstanceRaw
  camera : Camera
  compute_pipeline : Bool
  frame_time_samples : List ℚ
  frame_time_index : ℕ
deriving DecidableEq, Repr

/-- `State::new` from `state.rs`.  The pseudo-random draws are abstracted as
the generator functions `instGen`/`driftGen` (index-to-value); everything
else follows the constructor: 1,500,000 instances, drift data of the same
length, `instances_raw = instances.map(to_raw)`, the device instance buffer
initialised from `instances_raw`, the compute pipeline present, 25 frame-time
samples all zero (`Default::default()`), and the camera literal of the
source. -/
def State.new (instGen : ℕ → Instance) (driftGen : ℕ → ParticleCpuData)
    (width height : ℕ) : State :=
  let instances := (List.range instanceCount).map instGen
  let instances_cpu_data := (List.range instances.length).map driftGen
  let instances_raw := instances.map Instance.to_raw
  { config_width := width
    config_height := height
    size_width := width
    size_height := height
    surface_configured_count := 1
    instances := instances
    instances_raw := instances_raw
    instances_cpu_data := instances_cpu_data
    instance_buffer := instances_raw
    camera :=
      { eye := ⟨0, 1, 5000⟩
        target := ⟨0, 0, -100⟩
        up := ⟨0, 1, 0⟩
        aspect := (width : ℚ) / (height : ℚ)
        fovy := 20
        znear := 0
        zfar := 10000 }
    compute_pipeline := true
    frame_time_samples := List.replicate 25 0
    frame_time_index := 0 }

/-- The in-place mutation loop of the R-key branch of `State::input`:
`for (instance, raw) in instances.iter_mut().zip(&instances_raw) {
instance.position = raw.model.w_axis.xyz(); }`.  A `zip` stops at the
shorter list; instances beyond it keep their old position. -/
def zipSetPositions : List Instance → List InstanceRaw → List Instance
  | insts, [] => insts
  | [], _ => []
  | inst :: insts, raw :: raws =>
      { inst with position := raw.model.w_axis.xyz } :: zipSetPositions insts raws

/-- `State::input` from `state.rs`.  Returns the new state and the `bool`
the method returns.  A pixel-delta mouse wheel moves the camera eye along z
and returns `true`; a line-delta wheel returns `false` early.  A keyboard
event with keycode `R` copies each host-mirror `instances_raw[i].model`
translation column into `instances[i].position` and drops the compute
pipeline (the device read-back it also starts is asynchronous, its callback
only collects the mapped bytes and discards them, so it has no effect on the
state); `input` then falls through to `return false`. -/
def State.input (s : State) (event : WindowEvent) : State × Bool :=
  match event with
  | WindowEvent.MouseWheel delta =>
      match delta with
      | MouseScrollDelta.LineDelta _ _ => (s, false)
      | MouseScrollDelta.PixelDelta _ py =>
          let eye := { s.camera.eye with z := s.camera.eye.z + py / 50 }
          ({ s with
              camera := { s.camera with eye := eye, target := eye + ⟨0, 0, -1⟩ } },
           true)
  | WindowEvent.KeyboardInput keycode =>
      if keycode = some VirtualKeyCode.R then
        ({ s with
            instances := zipSetPositions s.instances s.instances_raw
            compute_pipeline := false },
         false)
      else (s, false)
  | _ => (s, false)

/-- `State::resize` from `state.rs`: only when both dimensions are positive
does it update `size`, `config`, reconfigure the surface and recompute the
camera aspect ratio; otherwise it does nothing. -/
def State.resize (s : State) (new_width new_height : ℕ) : State :=
  if 0 < new_width ∧ 0 < new_height then
    { s with
        size_width := new_width
        size_height := new_height
        config_width := new_width
        config_height := new_height
        surface_configured_count := s.surface_configured_count + 1
        camera := { s.camera with aspect := (new_width : ℚ) / (new_height : ℚ) } }
  else s

/-- The per-index body of the CPU branch of `State::move_particles` applied
to the `instances` vector: `instance.position += cpu_data.speed` over the
`zip`, entries past the shorter list unchanged. -/
def moveInstances : List Instance → List ParticleCpuData → List Instance
  | insts, [] => insts
  | [], _ => []
  | inst :: insts, d :: ds =>
      { inst with position := inst.position + d.speed } :: moveInstances insts ds

/-- The value `collect_into_vec` stores into `instances_raw` on the CPU
branch: `to_raw` of each moved instance, exactly as long as the `zip`. -/
def collectRaw : List Instance → List ParticleCpuData → List InstanceRaw
  | _, [] => []
  | [], _ => []
  | inst :: insts, d :: ds =>
      Instance.to_raw { inst with position := inst.position + d.speed } :: collectRaw insts ds

/-- `queue.write_buffer(buffer, 0, data)`: overwrite the buffer from byte
offset 0 with `data`, leaving any tail beyond `data.length` unchanged. -/
def writeBuffer (buffer new : List InstanceRaw) : List InstanceRaw :=
  new ++ buffer.drop new.length

/-- The CPU (`else`) branch of `State::move_particles`: move every particle
by its drift, rebuild the raw mirror, then upload the whole mirror to the
device instance buffer in one `write_buffer` call. -/
def State.cpuAdvance (s : State) : State :=
  let raws := collectRaw s.instances s.instances_cpu_data
  { s with
      instances := moveInstances s.instances s.instances_cpu_data
      instances_raw := raws
      instance_buffer := writeBuffer s.instance_buffer raws }

/-- Modelled from the spec: `compute_kernel.wgsl` is not under `src/` (it is
pulled in with `include_str!`), so the compute shader's effect is taken from
spec sections 4.3 and 6 — one invocation per particle index advances the
instance transform's position by the particle's drift velocity, invocations
past `N` bounds-check and no-op.  On the device buffer this is: add
`speed` to the translation column of each `InstanceRaw`, index by index. -/
def gpuComputeAdvance : List InstanceRaw → List ParticleCpuData → List InstanceRaw
  | raws, [] => raws
  | [], _ => []
  | raw :: raws, d :: ds =>
      { raw with
          model :=
            { raw.model with
                w_axis :=
                  { raw.model.w_axis with
                      x := raw.model.w_axis.x + d.speed.x
                      y := raw.model.w_axis.y + d.speed.y
                      z := raw.model.w_axis.z + d.speed.z } } } :: gpuComputeAdvance raws ds

/-- `State::move_particles` from `state.rs`: with a compute pipeline
present, record and submit the compute dispatch (its effect on the device
buffer is `gpuComputeAdvance`; host mirrors untouched); otherwise run the
CPU branch. -/
def State.move_particles (s : State) : State :=
  if s.compute_pipeline then
    { s with instance_buffer := gpuComputeAdvance s.instance_buffer s.instances_cpu_data }
  else s.cpuAdvance

/-- The frame-time accounting tail of `State::render`:
`samples[index] = delta; index = (index + 1) % samples.len()`. -/
def State.record_frame_time (s : State) (delta : ℚ) : State :=
  { s with
      frame_time_samples := s.frame_time_samples.set s.frame_time_index delta
      frame_time_index := (s.frame_time_index + 1) % s.frame_time_samples.length }

/-- The rolling average `State::render` prints:
`samples.iter().sum::<f32>() / samples.len() as f32`. -/
def State.average_frame_time (s : State) : ℚ :=
  s.frame_time_samples.sum / (s.frame_time_samples.length : ℚ)

/-- `State::render` from `state.rs`.  `surfaceErr` is the outcome of
`surface.get_current_texture()` (environment-supplied), `delta` the measured
frame time.  Particles are moved first in either case; on a surface error the
method returns early with the error (before the frame-time bookkeeping),
otherwise it draws, presents, and records the frame-time sample. -/
def State.render (s : State) (delta : ℚ) (surfaceErr : Option SurfaceError) :
    State × Option SurfaceError :=
  let s1 := s.move_particles
  match surfaceErr with
  | some e => (s1, some e)
  | none => (s1.record_frame_time delta, none)

/-- `winit::event_loop::ControlFlow` as set by `main`. -/
inductive ControlFlow where
  | Poll
  | ExitLoop
deriving DecidableEq, Repr

/-- What `main`'s error arm does with a frame: whether the surface is
reconfigured, whether the event loop exits, and whether the error is
logged. -/
structure ErrorDisposition where
  state : State
  control : ControlFlow
  logged : Bool

/-- The `match e` in `main`'s `RedrawRequested` arm: `Lost` is logged and
answered with `resize(*state.size())`; `OutOfMemory` is logged and exits the
loop; every other surface error is logged and the frame merely skipped. -/
def handleRenderError (s : State) : SurfaceError → ErrorDisposition
  | SurfaceError.Lost =>
      { state := s.resize s.size_width s.size_height
        control := ControlFlow.Poll
        logged := true }
  | SurfaceError.OutOfMemory =>
      { state := s, control := ControlFlow.ExitLoop, logged := true }
  | _ => { state := s, control := ControlFlow.Poll, logged := true }

/-- One event-loop interaction, after `main.rs`: a window event is offered
to `State::input` first and only dispatched to `resize` when `input` returns
`false`; a redraw runs `render` and applies `handleRenderError` to any
error. -/
inductive Op where
  | windowEvent (event : WindowEvent)
  | redrawRequested (delta : ℚ) (surfaceErr : Option SurfaceError)

/-- The state transition of one `Op` in `main`'s event loop. -/
def State.applyOp (s : State) : Op → State
  | Op.windowEvent event =>
      let (s1, consumed) := s.input event
      if consumed then s1
      else
        match event with
        | WindowEvent.Resized w h => s1.resize w h
        | WindowEvent.ScaleFactorChanged w h => s1.resize w h
        | _ => s1
  | Op.redrawRequested delta surfaceErr =>
      let (s1, err) := s.render delta surfaceErr
      match err with
      | some e => (handleRenderError s1 e).state
      | none => s1

/-! Helper lemmas about the list recursions. -/

theorem zipSetPositions_length (a : List Instance) (b : List InstanceRaw) :
    (zipSetPositions a b).length = a.length := by
  induction a generalizing b with
  | nil => cases b <;> simp [zipSetPositions]
  | cons x xs ih => cases b <;> simp [zipSetPositions, ih]

theorem moveInstances_length (a : List Instance) (b : List ParticleCpuData) :
    (moveInstances a b).length = a.length := by
  induction a generalizing b with
  | nil => cases b <;> simp [moveInstances]
  | cons x xs ih => cases b <;> simp [moveInstances, ih]

theorem collectRaw_length (a : List Instance) (b : List ParticleCpuData) :
    (collectRaw a b).length = min a.length b.length := by
  induction a generalizing b with
  | nil => cases b <;> simp [collectRaw]
  | cons x xs ih => cases b <;> simp [collectRaw, ih, Nat.succ_min_succ]

theorem gpuComputeAdvance_length (a : List InstanceRaw) (b : List ParticleCpuData) :
    (gpuComputeAdvance a b).length = a.length := by
  induction a generalizing b with
  | nil => cases b <;> simp [gpuComputeAdvance]
  | cons x xs ih => cases b <;> simp [gpuComputeAdvance, ih]

theorem zipSetPositions_getElem? (a : List Instance) (b : List InstanceRaw) (i : ℕ)
    (inst : Instance) (raw : InstanceRaw) (ha : a[i]? = some inst) (hb : b[i]? = some raw) :
    (zipSetPositions a b)[i]? = some { inst with position := raw.model.w_axis.xyz } := by
  induction a generalizing b i with
  | nil => simp at ha
  | cons x xs ih =>
      cases b with
      | nil => simp at hb
      | cons y ys =>
          cases i with
          | zero =>
              simp only [List.getElem?_cons_zero, Option.some.injEq] at ha hb
              subst ha; subst hb
              simp [zipSetPositions]
          | succ n =>
              simp only [List.getElem?_cons_succ] at ha hb
              simpa [zipSetPositions] using ih ys n ha hb

theorem moveInstances_getElem? (a : List Instance) (b : List ParticleCpuData) (i : ℕ)
    (inst : Instance) (d : ParticleCpuData) (ha : a[i]? = some inst) (hb : b[i]? = some d) :
    (moveInstances a b)[i]? = some { inst with position := inst.position + d.speed } := by
  induction a generalizing b i with
  | nil => simp at ha
  | cons x xs ih =>
      cases b with
      | nil => simp at hb
      | cons y ys =>
          cases i with
          | zero =>
              simp only [List.getElem?_cons_zero, Option.some.injEq] at ha hb
              subst ha; subst hb
              simp [moveInstances]
          | succ n =>
              simp only [List.getElem?_cons_succ] at ha hb
              simpa [moveInstances] using ih ys n ha hb

theorem collectRaw_getElem? (a : List Instance) (b : List ParticleCpuData) (i : ℕ)
    (inst : Instance) (d : ParticleCpuData) (ha : a[i]? = some inst) (hb : b[i]? = some d) :
    (collectRaw a b)[i]? =
      some (Instance.to_raw { inst with position := inst.position + d.speed }) := by
  induction a generalizing b i with
  | nil => simp at ha
  | cons x xs ih =>
      cases b with
      | nil => simp at hb
      | cons y ys =>
          cases i with
          | zero =>
              simp only [List.getElem?_cons_zero, Option.some.injEq] at ha hb
              subst ha; subst hb
              simp [collectRaw]
          | succ n =>
              simp only [List.getElem?_cons_succ] at ha hb
              simpa [collectRaw] using ih ys n ha hb

theorem gpuComputeAdvance_getElem? (a : List InstanceRaw) (b : List ParticleCpuData) (i : ℕ)
    (raw : InstanceRaw) (d : ParticleCpuData) (ha : a[i]? = some raw) (hb : b[i]? = some d) :
    (gpuComputeAdvance a b)[i]? =
      some { raw with
              model :=
                { raw.model with
                    w_axis :=
                      { raw.model.w_axis with
                          x := raw.model.w_axis.x + d.speed.x
                          y := raw.model.w_axis.y + d.speed.y
                          z := raw.model.w_axis.z + d.speed.z } } } := by
  induction a generalizing b i with
  | nil => simp at ha
  | cons x xs ih =>
      cases b with
      | nil => simp at hb
      | cons y ys =>
          cases i with
          | zero =>
              simp only [List.getElem?_cons_zero, Option.some.injEq] at ha hb
              subst ha; subst hb
              simp [gpuComputeAdvance]
          | succ n =>
              simp only [List.getElem?_cons_succ] at ha hb
              simpa [gpuComputeAdvance] using ih ys n ha hb

/-! Concrete data used by witnesses and counterexamples. -/

def testInstance : Instance :=
  { position := ⟨1, 2, 3⟩, rotation := ⟨⟨0, 0, 0⟩, 1⟩, color := ⟨1, 0, 0, 1⟩ }

def testDrift : ParticleCpuData := ⟨⟨1, 0, 0⟩⟩

def testCamera : Camera :=
  { eye := ⟨0, 1, 5000⟩
    target := ⟨0, 0, -100⟩
    up := ⟨0, 1, 0⟩
    aspect := 1
    fovy := 20
    znear := 0
    zfar := 10000 }

/-- A small concrete state (one particle, GPU backend active) used to
instantiate the theorems. -/
def testState : State :=
  { config_width := 1500
    config_height := 900
    size_width := 1500
    size_height := 900
    surface_configured_count := 1
    instances := [testInstance]
    instances_raw := [Instance.to_raw testInstance]
    instances_cpu_data := [testDrift]
    instance_buffer := [Instance.to_raw testInstance]
    camera := testCamera
    compute_pipeline := true
    frame_time_samples := List.replicate 25 0
    frame_time_index := 0 }

/-- `testState` with the CPU backend active. -/
def testStateCpu : State := { testState with compute_pipeline := false }

/-! Circular-buffer lemmas for the frame-time accounting. -/

/-- `k` consecutive frames all measuring `delta`: iterate the frame-time
recording tail of `State::render`. -/
def feedFrameTimes : ℕ → State → ℚ → State
  | 0, s, _ => s
  | k + 1, s, v => feedFrameTimes k (s.record_frame_time v) v

theorem record_frame_time_length (s : State) (v : ℚ) :
    (s.record_frame_time v).frame_time_samples.length = s.frame_time_samples.length := by
  simp [State.record_frame_time]

theorem record_frame_time_index_lt (s : State) (v : ℚ)
    (h : 0 < s.frame_time_samples.length) :
    (s.record_frame_time v).frame_time_index < (s.record_frame_time v).frame_time_samples.length := by
  simp only [State.record_frame_time, List.length_set]
  exact Nat.mod_lt _ h

theorem feedFrameTimes_length (k : ℕ) (s : State) (v : ℚ) :
    (feedFrameTimes k s v).frame_time_samples.length = s.frame_time_samples.length := by
  induction k generalizing s with
  | zero => rfl
  | succ k ih => simp [feedFrameTimes, ih, record_frame_time_length]

theorem feedFrameTimes_persist (k : ℕ) (s : State) (v : ℚ) (j : ℕ)
    (h : s.frame_time_samples[j]? = some v) :
    (feedFrameTimes k s v).frame_time_samples[j]? = some v := by
  induction k generalizing s with
  | zero => exact h
  | succ k ih =>
      apply ih
      simp only [State.record_frame_time]
      rcases eq_or_ne s.frame_time_index j with hij | hij
      · subst hij
        have hlt : s.frame_time_index < s.frame_time_samples.length :=
          (List.getElem?_eq_some_iff.mp h).1
        exact List.getElem?_set_eq_of_lt v hlt
      · rw [List.getElem?_set_ne hij]; exact h

theorem feedFrameTimes_covers (k : ℕ) :
    ∀ (s : State) (v : ℚ) (j t : ℕ),
      s.frame_time_index < s.frame_time_samples.length →
      j < s.frame_time_samples.length →
      t < k →
      (s.frame_time_index + t) % s.frame_time_samples.length = j →
      (feedFrameTimes k s v).frame_time_samples[j]? = some v := by
  induction k with
  | zero => intro _ _ _ t _ _ ht _; omega
  | succ k ih =>
      intro s v j t hi hj ht hmod
      show (feedFrameTimes k (s.record_frame_time v) v).frame_time_samples[j]? = some v
      rcases Nat.eq_zero_or_pos t with ht0 | htpos
      · subst ht0
        rw [Nat.add_zero, Nat.mod_eq_of_lt hi] at hmod
        subst hmod
        apply feedFrameTimes_persist
        simp only [State.record_frame_time]
        exact List.getElem?_set_eq_of_lt v hi
      · obtain ⟨t2, rfl⟩ : ∃ t2, t = t2 + 1 := ⟨t - 1, by omega⟩
        have hL : 0 < s.frame_time_samples.length := by omega
        refine ih (s.record_frame_time v) v j t2 ?_ ?_ (by omega) ?_
        · exact record_frame_time_index_lt s v hL
        · rw [record_frame_time_length]; exact hj
        · simp only [State.record_frame_time, List.length_set]
          rw [Nat.mod_add_mod]
          have harr : s.frame_time_index + 1 + t2 = s.frame_time_index + (t2 + 1) := by omega
          rw [harr]; exact hmod

theorem feedFrameTimes_full (s : State) (v : ℚ)
    (hi : s.frame_time_index < s.frame_time_samples.length) :
    (feedFrameTimes s.frame_time_samples.length s v).frame_time_samples =
      List.replicate s.frame_time_samples.length v := by
  have hL : 0 < s.frame_time_samples.length := by omega
  apply List.ext_getElem?
  intro j
  rcases Nat.lt_or_ge j s.frame_time_samples.length with hj | hj
  · rw [List.getElem?_replicate, if_pos hj]
    obtain ⟨t, htlt, hmod⟩ :
        ∃ t, t < s.frame_time_samples.length ∧
          (s.frame_time_index + t) % s.frame_time_samples.length = j := by
      refine ⟨(s.frame_time_samples.length + j - s.frame_time_index) %
        s.frame_time_samples.length, Nat.mod_lt _ hL, ?_⟩
      rw [Nat.add_mod_mod]
      have he : s.frame_time_index + (s.frame_time_samples.length + j - s.frame_time_index) =
          s.frame_time_samples.length + j := by omega
      rw [he, Nat.add_mod_left]
      exact Nat.mod_eq_of_lt hj
    exact feedFrameTimes_covers _ s v j t hi hj htlt hmod
  · rw [List.getElem?_eq_none, List.getElem?_eq_none]
    · simpa using hj
    · rw [feedFrameTimes_length]; exact hj

/-! Preservation helpers for the length invariant and the backend flag. -/

/-- The spec's length invariant: the three per-particle containers all hold
exactly `instanceCount` entries. -/
def LengthInvariant (s : State) : Prop :=
  s.instances.length = instanceCount ∧
  s.instances_cpu_data.length = instanceCount ∧
  s.instances_raw.length = instanceCount

theorem lengthInvariant_new (instGen : ℕ → Instance) (driftGen : ℕ → ParticleCpuData)
    (w h : ℕ) : LengthInvariant (State.new instGen driftGen w h) := by
  refine ⟨?_, ?_, ?_⟩ <;> simp [State.new]

theorem lengthInvariant_input (s : State) (hs : LengthInvariant s) (e : WindowEvent) :
    LengthInvariant (s.input e).1 := by
  obtain ⟨h1, h2, h3⟩ := hs
  cases e with
  | MouseWheel delta => cases delta <;> exact ⟨h1, h2, h3⟩
  | KeyboardInput keycode =>
      simp only [State.input]
      split
      · exact ⟨by simpa [zipSetPositions_length] using h1, h2, h3⟩
      · exact ⟨h1, h2, h3⟩
  | Resized w h => exact ⟨h1, h2, h3⟩
  | ScaleFactorChanged w h => exact ⟨h1, h2, h3⟩
  | CloseRequested => exact ⟨h1, h2, h3⟩
  | Other => exact ⟨h1, h2, h3⟩

theorem lengthInvariant_resize (s : State) (hs : LengthInvariant s) (w h : ℕ) :
    LengthInvariant (s.resize w h) := by
  obtain ⟨h1, h2, h3⟩ := hs
  simp only [State.resize]
  split <;> exact ⟨h1, h2, h3⟩

theorem lengthInvariant_move_particles (s : State) (hs : LengthInvariant s) :
    LengthInvariant s.move_particles := by
  obtain ⟨h1, h2, h3⟩ := hs
  simp only [State.move_particles]
  split
  · exact ⟨h1, h2, h3⟩
  · exact ⟨by simpa [State.cpuAdvance, moveInstances_length] using h1, h2,
      by simp [State.cpuAdvance, collectRaw_length, h1, h2]⟩

theorem lengthInvariant_record (s : State) (hs : LengthInvariant s) (v : ℚ) :
    LengthInvariant (s.record_frame_time v) := hs

theorem lengthInvariant_render (s : State) (hs : LengthInvariant s) (d : ℚ)
    (err : Option SurfaceError) : LengthInvariant (s.render d err).1 := by
  have hm := lengthInvariant_move_particles s hs
  cases err with
  | none => exact lengthInvariant_record _ hm d
  | some e => exact hm

theorem lengthInvariant_handleRenderError (s : State) (hs : LengthInvariant s)
    (e : SurfaceError) : LengthInvariant (handleRenderError s e).state := by
  cases e <;> first
    | exact hs
    | exact lengthInvariant_resize s hs s.size_width s.size_height

theorem lengthInvariant_applyOp (s : State) (hs : LengthInvariant s) (op : Op) :
    LengthInvariant (s.applyOp op) := by
  cases op with
  | windowEvent e =>
      have hi := lengthInvariant_input s hs e
      simp only [State.applyOp]
      split
      · exact hi
      · cases e <;> first
          | exact hi
          | exact lengthInvariant_resize _ hi _ _
  | redrawRequested delta surfaceErr =>
      have hr := lengthInvariant_render s hs delta surfaceErr
      simp only [State.applyOp, State.render] at hr ⊢
      cases surfaceErr with
      | none => exact hr
      | some e => exact lengthInvariant_handleRenderError _ hr e

theorem resize_compute_pipeline (s : State) (w h : ℕ) :
    (s.resize w h).compute_pipeline = s.compute_pipeline := by
  simp only [State.resize]; split <;> rfl

theorem cpuAdvance_compute_pipeline (s : State) :
    s.cpuAdvance.compute_pipeline = s.compute_pipeline := rfl

theorem move_particles_compute_pipeline (s : State) :
    s.move_particles.compute_pipeline = s.compute_pipeline := by
  simp only [State.move_particles]; split <;> rfl

theorem input_compute_pipeline_false (s : State) (hs : s.compute_pipeline = false)
    (e : WindowEvent) : (s.input e).1.compute_pipeline = false := by
  cases e with
  | MouseWheel delta => cases delta <;> exact hs
  | KeyboardInput keycode =>
      simp only [State.input]
      split
      · rfl
      · exact hs
  | Resized w h => exact hs
  | ScaleFactorChanged w h => exact hs
  | CloseRequested => exact hs
  | Other => exact hs

theorem handleRenderError_compute_pipeline (s : State) (e : SurfaceError) :
    (handleRenderError s e).state.compute_pipeline = s.compute_pipeline := by
  cases e <;> simp [handleRenderError, resize_compute_pipeline]

theorem applyOp_compute_pipeline_false (s : State) (hs : s.compute_pipeline = false)
    (op : Op) : (s.applyOp op).compute_pipeline = false := by
  cases op with
  | windowEvent e =>
      have hi := input_compute_pipeline_false s hs e
      simp only [State.applyOp]
      split
      · exact hi
      · cases e <;> first
          | exact hi
          | rw [resize_compute_pipeline]; exact hi
  | redrawRequested delta surfaceErr =>
      simp only [State.applyOp, State.render]
      cases surfaceErr with
      | none =>
          show (State.record_frame_time _ _).compute_pipeline = false
          rw [show (State.record_frame_time s.move_particles delta).compute_pipeline =
            s.move_particles.compute_pipeline from rfl, move_particles_compute_pipeline]
          exact hs
      | some e =>
          rw [handleRenderError_compute_pipeline, move_particles_compute_pipeline]
          exact hs

/-! The claims. -/

/-- Claim C2, as stated, is false: `State::new` constructs 1,500,000
instances unconditionally, and for the limits the device is requested with
(`wgpu::Limits::default()`) the bound
`N ≤ min(max_storage_buffer_binding_size, max_uniform_buffer_binding_size) / size_of(InstanceGPU)`
fails, since `min(134217728, 65536) / 80 = 819 < 1500000`. -/
theorem c2_capacity_counterexample :
    ¬ instanceCount ≤
        min default_max_storage_buffer_binding_size default_max_uniform_buffer_binding_size /
          instanceRawByteSize := by
  decide

/-- Claim C2 (amended): the instance capacity is hardcoded to 1,500,000
regardless of the device limits; `State::new` computes
`max_particle_count = min(max_storage_buffer_binding_size, max_uniform_buffer_binding_size)`
without dividing by `size_of::<InstanceRaw>()` and never uses it, and at the
default limits the spec's bound is violated. -/
theorem c2_capacity_amended :
    (∀ (instGen : ℕ → Instance) (driftGen : ℕ → ParticleCpuData) (w h : ℕ),
        (State.new instGen driftGen w h).instances.length = instanceCount) ∧
    instanceCount = 1500000 ∧
    (∀ storage_limit uniform_limit : ℕ,
        max_particle_count storage_limit uniform_limit = min storage_limit uniform_limit) ∧
    instanceCount >
      max_particle_count default_max_storage_buffer_binding_size
          default_max_uniform_buffer_binding_size /
        instanceRawByteSize := by
  refine ⟨?_, rfl, fun _ _ => rfl, by decide⟩
  intro instGen driftGen w h
  simp [State.new]

/-- Claim C4: the three per-particle containers hold exactly
`N = instanceCount > 0` entries after construction, and every operation
(input events, resize, `move_particles`, `render`, and any full event-loop
step) preserves this; no operation spawns, despawns or reallocates
particles. -/
theorem c4_fixed_particle_count (instGen : ℕ → Instance)
    (driftGen : ℕ → ParticleCpuData) (w h : ℕ) (s : State) (hs : LengthInvariant s) :
    0 < instanceCount ∧
    LengthInvariant (State.new instGen driftGen w h) ∧
    (∀ e, LengthInvariant (s.input e).1) ∧
    (∀ w2 h2, LengthInvariant (s.resize w2 h2)) ∧
    LengthInvariant s.move_particles ∧
    (∀ d err, LengthInvariant (s.render d err).1) ∧
    (∀ op, LengthInvariant (s.applyOp op)) :=
  ⟨by decide, lengthInvariant_new instGen driftGen w h,
   fun e => lengthInvariant_input s hs e,
   fun w2 h2 => lengthInvariant_resize s hs w2 h2,
   lengthInvariant_move_particles s hs,
   fun d err => lengthInvariant_render s hs d err,
   fun op => lengthInvariant_applyOp s hs op⟩

/-- Witness for C4 at a concrete construction followed by a resize. -/
theorem c4_fixed_particle_count_witness :
    LengthInvariant ((State.new (fun _ => testInstance) (fun _ => testDrift) 1500 900).resize 800 600) :=
  (c4_fixed_particle_count (fun _ => testInstance) (fun _ => testDrift) 1500 900
      (State.new (fun _ => testInstance) (fun _ => testDrift) 1500 900)
      (lengthInvariant_new (fun _ => testInstance) (fun _ => testDrift) 1500 900)).2.2.2.1 800 600

/-- Claim C5: for every `Instance`, the translation column (fourth column,
xyz) of `Instance::to_raw`'s model matrix is exactly the original position —
in this exact-arithmetic model the round trip is lossless, hence in
particular within the claimed 1e-5 tolerance componentwise. -/
theorem c5_to_raw_round_trip (i : Instance) :
    (Instance.to_raw i).model.w_axis.xyz = i.position ∧
    |(Instance.to_raw i).model.w_axis.x - i.position.x| ≤ 1 / 100000 ∧
    |(Instance.to_raw i).model.w_axis.y - i.position.y| ≤ 1 / 100000 ∧
    |(Instance.to_raw i).model.w_axis.z - i.position.z| ≤ 1 / 100000 := by
  have h := to_raw_w_axis i
  rw [h]
  refine ⟨rfl, ?_, ?_, ?_⟩ <;> simp

/-- Claim C6: `State::resize` is a complete no-op (size, config, aspect and
surface-configuration count all unchanged) when either dimension is zero,
and sets `camera.aspect = width / height` when both are positive. -/
theorem c6_resize_zero_guard (s : State) (w h : ℕ) :
    (w = 0 ∨ h = 0 → s.resize w h = s) ∧
    (0 < w → 0 < h →
      (s.resize w h).camera.aspect = (w : ℚ) / (h : ℚ) ∧
      (s.resize w h).size_width = w ∧
      (s.resize w h).size_height = h ∧
      (s.resize w h).config_width = w ∧
      (s.resize w h).config_height = h ∧
      (s.resize w h).surface_configured_count = s.surface_configured_count + 1) := by
  constructor
  · intro h0
    simp only [State.resize, if_neg (by omega : ¬(0 < w ∧ 0 < h))]
  · intro hw hh
    simp [State.resize, if_pos (And.intro hw hh)]

/-- Witness for C6: a zero-height resize leaves the test state untouched and
a 2x3 resize sets the aspect ratio to 2/3. -/
theorem c6_resize_zero_guard_witness :
    testState.resize 5 0 = testState ∧
    (testState.resize 2 3).camera.aspect = ((2 : ℕ) : ℚ) / ((3 : ℕ) : ℚ) :=
  ⟨(c6_resize_zero_guard testState 5 0).1 (Or.inr rfl),
   ((c6_resize_zero_guard testState 2 3).2 (by decide) (by decide)).1⟩

/-- Claim C7: `main`'s handling of a `render` error distinguishes exactly
`Lost` (reconfigure via `resize` with the current size, keep looping),
`OutOfMemory` (exit the event loop), and any other surface error (skip the
frame, keep looping); every case is logged, none silently swallowed. -/
theorem c7_surface_error_handling (s : State) (e : SurfaceError) :
    (handleRenderError s SurfaceError.Lost).state = s.resize s.size_width s.size_height ∧
    (handleRenderError s SurfaceError.Lost).control = ControlFlow.Poll ∧
    (handleRenderError s SurfaceError.OutOfMemory).control = ControlFlow.ExitLoop ∧
    (handleRenderError s SurfaceError.OutOfMemory).state = s ∧
    (e ≠ SurfaceError.Lost → e ≠ SurfaceError.OutOfMemory →
      (handleRenderError s e).state = s ∧ (handleRenderError s e).control = ControlFlow.Poll) ∧
    (handleRenderError s e).logged = true := by
  refine ⟨rfl, rfl, rfl, rfl, ?_, ?_⟩
  · intro h1 h2
    cases e with
    | Timeout => exact ⟨rfl, rfl⟩
    | Outdated => exact ⟨rfl, rfl⟩
    | Lost => exact absurd rfl h1
    | OutOfMemory => exact absurd rfl h2
  · cases e <;> rfl

/-- Witness for C7 at the `Timeout` surface error. -/
theorem c7_surface_error_handling_witness :
    (handleRenderError testState SurfaceError.Timeout).state = testState ∧
    (handleRenderError testState SurfaceError.Timeout).control = ControlFlow.Poll :=
  (c7_surface_error_handling testState SurfaceError.Timeout).2.2.2.2.1
    (by decide) (by decide)

/-- Claim C8: the frame-time accounting is a 25-sample circular buffer with
a wrapping write index (each record keeps the length at 25 and the index
below 25), and feeding 25 consecutive samples of value `v` makes the buffer
`replicate 25 v`, whose reported rolling average is exactly `v`. -/
theorem c8_frame_time_average (s : State) (v : ℚ)
    (hlen : s.frame_time_samples.length = 25) (hidx : s.frame_time_index < 25) :
    (∀ d : ℚ, (s.record_frame_time d).frame_time_samples.length = 25 ∧
      (s.record_frame_time d).frame_time_index < 25) ∧
    (feedFrameTimes 25 s v).frame_time_samples = List.replicate 25 v ∧
    (feedFrameTimes 25 s v).average_frame_time = v := by
  have hidx2 : s.frame_time_index < s.frame_time_samples.length := by omega
  have hfull := feedFrameTimes_full s v hidx2
  rw [hlen] at hfull
  refine ⟨fun d => ⟨by rw [record_frame_time_length, hlen], ?_⟩, hfull, ?_⟩
  · have hr := record_frame_time_index_lt s d (by omega)
    rwa [record_frame_time_length, hlen] at hr
  · rw [State.average_frame_time, hfull]
    rw [List.sum_replicate, List.length_replicate, nsmul_eq_mul]
    norm_num

/-- Witness for C8 at the concrete test state and sample value 7. -/
theorem c8_frame_time_average_witness :
    (feedFrameTimes 25 testState 7).frame_time_samples = List.replicate 25 7 ∧
    (feedFrameTimes 25 testState 7).average_frame_time = 7 :=
  ⟨(c8_frame_time_average testState 7 (by decide) (by decide)).2.1,
   (c8_frame_time_average testState 7 (by decide) (by decide)).2.2⟩

/-- Claim C9: the compute dispatch `dispatch_workgroups(10_000, 150, 1)`
covers all `N = 1,500,000` instances: for every workgroup size of at least
one invocation, `workgroups.x * workgroups.y * workgroup_size ≥ N`. -/
theorem c9_dispatch_geometry (workgroup_size : ℕ) (hw : 1 ≤ workgroup_size) :
    instanceCount ≤ dispatch_workgroups_x * dispatch_workgroups_y * workgroup_size := by
  have h1 : instanceCount = dispatch_workgroups_x * dispatch_workgroups_y := by decide
  calc instanceCount = dispatch_workgroups_x * dispatch_workgroups_y * 1 := by
        rw [Nat.mul_one, h1]
    _ ≤ dispatch_workgroups_x * dispatch_workgroups_y * workgroup_size :=
        Nat.mul_le_mul_left _ hw

/-- Witness for C9 at workgroup size one. -/
theorem c9_dispatch_geometry_witness :
    instanceCount ≤ dispatch_workgroups_x * dispatch_workgroups_y * 1 :=
  c9_dispatch_geometry 1 (by decide)

/-- Claim C3: with the CPU backend active, one `move_particles` step sets
`position_i + drift_i.velocity` independently for every index, rebuilds
`instances_raw[i] = to_raw` of the moved instance (rotation and color
unchanged — the `{ inst with position := … }` update keeps both), and then
the device instance buffer holds exactly the uploaded host mirror (one
contiguous `write_buffer` from offset 0 covering the whole mirror). -/
theorem c3_cpu_advance_step (s : State) (hcp : s.compute_pipeline = false)
    (hd : s.instances_cpu_data.length = s.instances.length)
    (hb : s.instance_buffer.length = s.instances.length) :
    (∀ (i : ℕ) (inst : Instance) (d : ParticleCpuData),
        s.instances[i]? = some inst → s.instances_cpu_data[i]? = some d →
        s.move_particles.instances[i]? =
            some { inst with position := inst.position + d.speed } ∧
        s.move_particles.instances_raw[i]? =
            some (Instance.to_raw { inst with position := inst.position + d.speed })) ∧
    s.move_particles.instance_buffer = s.move_particles.instances_raw := by
  have hmv : s.move_particles = s.cpuAdvance := by
    simp [State.move_particles, hcp]
  rw [hmv]
  constructor
  · intro i inst d ha hcd
    simp only [State.cpuAdvance]
    exact ⟨moveInstances_getElem? _ _ i inst d ha hcd,
           collectRaw_getElem? _ _ i inst d ha hcd⟩
  · simp only [State.cpuAdvance, writeBuffer]
    have hlen : (collectRaw s.instances s.instances_cpu_data).length =
        s.instance_buffer.length := by
      rw [collectRaw_length, hd, Nat.min_self, hb]
    rw [hlen, List.drop_length, List.append_nil]

/-- Witness for C3 at the one-particle CPU-mode test state, index 0. -/
theorem c3_cpu_advance_step_witness :
    testStateCpu.compute_pipeline = false ∧
    testStateCpu.move_particles.instances[0]? =
      some { testInstance with position := testInstance.position + testDrift.speed } ∧
    testStateCpu.move_particles.instance_buffer = testStateCpu.move_particles.instances_raw :=
  ⟨rfl,
   ((c3_cpu_advance_step testStateCpu rfl rfl rfl).1 0 testInstance testDrift rfl rfl).1,
   (c3_cpu_advance_step testStateCpu rfl rfl rfl).2⟩

/-- Claim C10: the compute pipeline is present at construction, processing
an R-key event removes it, no operation of the event loop ever restores it
(so the GPU→CPU switch is one-way over any sequence of further operations),
and with it absent `move_particles` takes the CPU branch. -/
theorem c10_one_way_switch :
    (∀ (instGen : ℕ → Instance) (driftGen : ℕ → ParticleCpuData) (w h : ℕ),
        (State.new instGen driftGen w h).compute_pipeline = true) ∧
    (∀ s : State,
        (s.input (WindowEvent.KeyboardInput (some VirtualKeyCode.R))).1.compute_pipeline =
          false) ∧
    (∀ (s : State) (ops : List Op), s.compute_pipeline = false →
        (ops.foldl State.applyOp s).compute_pipeline = false) ∧
    (∀ s : State, s.compute_pipeline = false → s.move_particles = s.cpuAdvance) := by
  refine ⟨fun _ _ _ _ => rfl, fun s => rfl, ?_, ?_⟩
  · intro s ops hs
    induction ops generalizing s with
    | nil => exact hs
    | cons op ops ih => exact ih _ (applyOp_compute_pipeline_false s hs op)
  · intro s hs
    simp [State.move_particles, hs]

/-- Witness for C10: switch the test state with R, run one more redraw, the
backend stays CPU; and the CPU-mode test state takes the CPU branch. -/
theorem c10_one_way_switch_witness :
    (([Op.redrawRequested 1 none].foldl State.applyOp
        (testState.input (WindowEvent.KeyboardInput (some VirtualKeyCode.R))).1).compute_pipeline
      = false) ∧
    testStateCpu.move_particles = testStateCpu.cpuAdvance :=
  ⟨c10_one_way_switch.2.2.1
      (testState.input (WindowEvent.KeyboardInput (some VirtualKeyCode.R))).1
      [Op.redrawRequested 1 none] rfl,
   c10_one_way_switch.2.2.2 testStateCpu rfl⟩

/-- The C1 scenario: one GPU-mode frame from the one-particle test state.
At the end of this frame the device instance buffer has advanced by the
drift while the host mirrors are untouched — this is the device state at
switch time. -/
def gpuFrameState : State := testState.move_particles

/-- The C1 scenario, continued: the R key is pressed, triggering the
GPU→CPU switch of `State::input`. -/
def switchedState : State :=
  (gpuFrameState.input (WindowEvent.KeyboardInput (some VirtualKeyCode.R))).1

/-- Claim C1, as stated, is false: after the GPU→CPU switch the particle
positions do not all equal the translation columns the device instance
buffer held at switch time.  The read-back `State::input` starts is never
awaited (its `map_async` callback only collects the mapped bytes and drops
them), and positions are instead copied from the stale host mirror
`instances_raw`, which GPU-mode frames never updated: in the scenario the
device says `(2, 2, 3)` but the particle ends at `(1, 2, 3)`. -/
theorem c1_switch_counterexample :
    ¬ (∀ (i : ℕ) (inst : Instance) (raw : InstanceRaw),
        switchedState.instances[i]? = some inst →
        gpuFrameState.instance_buffer[i]? = some raw →
        inst.position = raw.model.w_axis.xyz) := by
  intro hall
  have h1 : switchedState.instances[0]? =
      some { testInstance with position := (Instance.to_raw testInstance).model.w_axis.xyz } :=
    zipSetPositions_getElem? [testInstance] [Instance.to_raw testInstance] 0 testInstance
      (Instance.to_raw testInstance) rfl rfl
  have h2 : gpuFrameState.instance_buffer[0]? =
      some { Instance.to_raw testInstance with
              model :=
                { (Instance.to_raw testInstance).model with
                    w_axis :=
                      { (Instance.to_raw testInstance).model.w_axis with
                          x := (Instance.to_raw testInstance).model.w_axis.x + testDrift.speed.x
                          y := (Instance.to_raw testInstance).model.w_axis.y + testDrift.speed.y
                          z := (Instance.to_raw testInstance).model.w_axis.z +
                            testDrift.speed.z } } } :=
    gpuComputeAdvance_getElem? [Instance.to_raw testInstance] [testDrift] 0
      (Instance.to_raw testInstance) testDrift rfl rfl
  have h := hall 0 _ _ h1 h2
  simp only [to_raw_w_axis testInstance, Vec4.xyz] at h
  simp only [testInstance, testDrift, Vec3.mk.injEq] at h
  norm_num at h

/-- Claim C1 (amended): after the R-key GPU→CPU switch each
`Particle.position` equals the translation column of the corresponding
host-mirror `instances_raw[i].model` — not of the device buffer, whose
awaited read-back the claim assumed; the compute pipeline is dropped in the
same step. -/
theorem c1_switch_uses_host_mirror (s : State) (i : ℕ) (inst : Instance)
    (raw : InstanceRaw) (ha : s.instances[i]? = some inst)
    (hr : s.instances_raw[i]? = some raw) :
    (s.input (WindowEvent.KeyboardInput (some VirtualKeyCode.R))).1.instances[i]? =
      some { inst with position := raw.model.w_axis.xyz } ∧
    (s.input (WindowEvent.KeyboardInput (some VirtualKeyCode.R))).1.compute_pipeline =
      false :=
  ⟨zipSetPositions_getElem? s.instances s.instances_raw i inst raw ha hr, rfl⟩

/-- Witness for the amended C1 at the one-particle test state, index 0. -/
theorem c1_switch_uses_host_mirror_witness :
    (testState.input (WindowEvent.KeyboardInput (some VirtualKeyCode.R))).1.instances[0]? =
      some { testInstance with position := (Instance.to_raw testInstance).model.w_axis.xyz } :=
  (c1_switch_uses_host_mirror testState 0 testInstance (Instance.to_raw testInstance)
      rfl rfl).1

end WgpuInstancing
